import Mathlib

/-!
Verification development for the AI-Fashion skin-tone / recommendation core.

Machine floats are modelled as rationals (ℚ).  Calls into external
libraries (OpenCV colour-space conversions, `np.arctan`, `np.sqrt`,
scikit-learn KMeans) are modelled as parameters: a `CvEnv` record carries
one field per external function, and theorems state the hypotheses on
those fields they need (e.g. `sqrt 0 = 0`).  Everything else is a direct
translation of the Python source.
-/

namespace AiFashion

/-- An RGB (or Lab / HSV) colour triple, components as rationals. -/
abbrev Color := ℚ × ℚ × ℚ

/-- External library functions used by the analyzers.
`lab c` models `cv2.cvtColor(np.uint8([[c]]), cv2.COLOR_RGB2LAB)[0][0]`
(8-bit encoded: L scaled to 0..255, a and b offset by 128);
`hsv c` models `cv2.cvtColor(..., cv2.COLOR_RGB2HSV)[0][0]` (H in 0..180);
`atanDeg x` models `np.arctan(x) * 180 / np.pi`;
`sqrt x` models `np.sqrt x` / `math.sqrt x`. -/
structure CvEnv where
  lab : Color → Color
  hsv : Color → Color
  atanDeg : ℚ → ℚ
  sqrt : ℚ → ℚ

/-- Mean of the three channels, `np.mean([r, g, b])`. -/
def mean3 (c : Color) : ℚ := (c.1 + c.2.1 + c.2.2) / 3

/-- Largest channel, `max(r, g, b)`. -/
def max3 (c : Color) : ℚ := max c.1 (max c.2.1 c.2.2)

/-- Smallest channel, `min(r, g, b)`. -/
def min3 (c : Color) : ℚ := min c.1 (min c.2.1 c.2.2)

/-- One iteration of the minimum-tracking loop shared by both analyzers'
`find_closest_monk_tone_advanced`: the running `(closest_monk, min_distance)`
pair is replaced exactly when the candidate's combined distance is strictly
smaller (`min_distance = none` models the initial `float('inf')`). -/
def minStep (f : String × Color → ℚ) (acc : String × Option ℚ)
    (t : String × Color) : String × Option ℚ :=
  let d := f t
  match acc.2 with
  | none => (t.1, some d)
  | some m => if d < m then (t.1, some d) else acc

/-- The minimum-tracking loop itself. -/
def minLoop (f : String × Color → ℚ) (tones : List (String × Color))
    (init : String × Option ℚ) : String × Option ℚ :=
  tones.foldl (minStep f) init

namespace Enhanced

/-- Result dictionary of `EnhancedSkinToneAnalyzer.brightness_prefilter`. -/
structure BrightnessInfo where
  is_ultra_fair : Bool
  is_very_fair : Bool
  is_fair : Bool
  rgb_brightness : ℚ
  weighted_brightness : ℚ
  L_brightness : ℚ
  saturation : ℚ
  contrast : ℚ

/-- `EnhancedSkinToneAnalyzer.brightness_prefilter` (enhanced_skin_tone_analyzer.py,
lines 337-389).  `colorsys.rgb_to_hsv` is inlined: on inputs `r/255 …` its value
channel is `max/255` (so `v_brightness = hsv[2]*255` is the max channel) and its
saturation is `(max-min)/max` when `max ≠ 0`, else `0`.  The LAB `L` channel comes
from the external `cv2` conversion (`env.lab`). -/
def brightness_prefilter (env : CvEnv) (c : Color) : BrightnessInfo :=
  let r := c.1
  let g := c.2.1
  let b := c.2.2
  let rgb_brightness := mean3 c
  let weighted_brightness := 299/1000 * r + 587/1000 * g + 114/1000 * b
  let max_brightness := max3 c
  let min_brightness := min3 c
  let v_brightness := max_brightness
  let saturation := (if max_brightness = 0 then 0 else (max_brightness - min_brightness) / max_brightness) * 100
  let L_brightness := (env.lab c).1
  { is_ultra_fair :=
      rgb_brightness > 200 ∧ weighted_brightness > 195 ∧ L_brightness > 75 ∧
        v_brightness > 190 ∧ max_brightness > 220
    is_very_fair :=
      rgb_brightness > 180 ∧ weighted_brightness > 175 ∧ L_brightness > 70 ∧
        v_brightness > 170 ∧ (max_brightness - min_brightness) < 60
    is_fair :=
      rgb_brightness > 160 ∧ weighted_brightness > 155 ∧ L_brightness > 65 ∧
        saturation < 30
    rgb_brightness := rgb_brightness
    weighted_brightness := weighted_brightness
    L_brightness := L_brightness
    saturation := saturation
    contrast := max_brightness - min_brightness }

/-- `EnhancedSkinToneAnalyzer.perfect_fair_skin_classification` (lines 391-421).
`none` models the Python `(None, 0.0)` fall-through. -/
def perfect_fair_skin_classification (_rgb_color : Color) (bi : BrightnessInfo) :
    Option (String × ℚ) :=
  if bi.is_ultra_fair then
    (if bi.L_brightness > 80 ∨ bi.rgb_brightness > 220 then some ("Monk 1", 99/100)
     else some ("Monk 2", 98/100))
  else if bi.is_very_fair then
    (if bi.saturation < 15 ∧ bi.L_brightness > 78 then some ("Monk 1", 97/100)
     else if bi.contrast < 40 ∧ bi.weighted_brightness > 185 then some ("Monk 2", 95/100)
     else some ("Monk 2", 93/100))
  else if bi.is_fair then
    (if bi.L_brightness > 75 then some ("Monk 1", 9/10)
     else if bi.L_brightness > 70 then some ("Monk 2", 88/100)
     else some ("Monk 3", 85/100))
  else none

/-- `EnhancedSkinToneAnalyzer.advanced_skin_tone_classification` (lines 423-493).
`none` models the Python fall-through that returns `None` (reached when
`avg_brightness > 150` but none of the inner conditions fires); the caller's
tuple unpacking then raises, which `find_closest_monk_tone_advanced` catches.
The unused `hsv` computation of the source (its `h, s, v` are never read
afterwards) is omitted. -/
def advanced_skin_tone_classification (env : CvEnv) (c : Color) : Option (String × ℚ) :=
  let avg_brightness := mean3 c
  let bi := brightness_prefilter env c
  match perfect_fair_skin_classification c bi with
  | some res => some res
  | none =>
    let labc := env.lab c
    let L := labc.1
    let b_val := labc.2.2
    let ita : ℚ := if |b_val| > 1/10 then env.atanDeg ((L - 50) / b_val)
                   else (if L > 50 then 90 else -90)
    if avg_brightness > 170 then
      (if L > 68 ∨ ita > 30 then some ("Monk 2", 85/100)
       else if L > 65 ∨ ita > 15 then some ("Monk 3", 8/10)
       else none)
    else if avg_brightness > 150 then
      (if L > 70 ∨ ita > 25 then some ("Monk 3", 8/10)
       else if L > 65 ∨ ita > 10 then some ("Monk 4", 75/100)
       else none)
    else if ita > 50 then some ("Monk 1", 9/10)
    else if ita > 35 then some ("Monk 2", 85/100)
    else if ita > 20 then some ("Monk 3", 8/10)
    else if ita > 5 then some ("Monk 4", 75/100)
    else if ita > -20 then
      some (if L > 65 then ("Monk 5", 7/10)
            else if L > 55 then ("Monk 6", 7/10)
            else ("Monk 7", 7/10))
    else
      some (if L > 45 then ("Monk 8", 65/100)
            else if L > 35 then ("Monk 9", 65/100)
            else ("Monk 10", 65/100))

/-- Combined multi-colour-space distance of one Monk reference colour from the
query, `EnhancedSkinToneAnalyzer.find_closest_monk_tone_advanced` loop body
(lines 512-583).  `avg`, `labc`, `hsvc` are the query's precomputed brightness,
Lab and HSV values. -/
def combined_distance (env : CvEnv) (avg : ℚ) (c labc hsvc : Color) (monk_rgb : Color) : ℚ :=
  let monk_lab := env.lab monk_rgb
  let monk_hsv := env.hsv monk_rgb
  let rgb_distance := env.sqrt ((c.1 - monk_rgb.1)^2 + (c.2.1 - monk_rgb.2.1)^2 +
    (c.2.2 - monk_rgb.2.2)^2)
  let lab_distance := env.sqrt ((labc.1 - monk_lab.1)^2 + (labc.2.1 - monk_lab.2.1)^2 +
    (labc.2.2 - monk_lab.2.2)^2)
  let hue_diff := min |hsvc.1 - monk_hsv.1| (180 - |hsvc.1 - monk_hsv.1|)
  let hue_distance := hue_diff / 180 * 100
  let monk_brightness := mean3 monk_rgb
  let brightness_diff := |avg - monk_brightness|
  if avg > 220 then
    let brightness_penalty :=
      if monk_brightness < 180 then brightness_diff * 5
      else if monk_brightness < 200 then brightness_diff * 2
      else brightness_diff * (2/10)
    rgb_distance * (1/10) + lab_distance * (1/10) + hue_distance * (5/100) +
      brightness_penalty * (75/100)
  else if avg > 200 then
    let brightness_penalty :=
      if monk_brightness < 170 then brightness_diff * (35/10)
      else if monk_brightness < 190 then brightness_diff * (18/10)
      else brightness_diff * (4/10)
    rgb_distance * (15/100) + lab_distance * (15/100) + hue_distance * (5/100) +
      brightness_penalty * (65/100)
  else if avg > 180 then
    let brightness_penalty :=
      if monk_brightness < 150 then brightness_diff * 2
      else brightness_diff * (8/10)
    rgb_distance * (25/100) + lab_distance * (25/100) + hue_distance * (1/10) +
      brightness_penalty * (4/10)
  else
    rgb_distance * (4/10) + lab_distance * (4/10) + hue_distance * (2/10)

/-- The minimum-tracking loop of `find_closest_monk_tone_advanced` (lines 509-587):
`min_distance` starts at `float('inf')` (modelled `none`) and is replaced by a
strictly smaller combined distance.  The Monk table is the dictionary's
name/reference-RGB pairs in insertion order (hex values decoded; the decoding
`int(hex[i:j], 16)` is the parse proved exact in the hex section below). -/
def distance_match (env : CvEnv) (tones : List (String × Color)) (c : Color) :
    String × Option ℚ :=
  minLoop (fun t => combined_distance env (mean3 c) c (env.lab c) (env.hsv c) t.2)
    tones ("Monk 2", none)

/-- `EnhancedSkinToneAnalyzer.find_closest_monk_tone_advanced` (lines 495-598).
When the rule-based step returns `None`, the caller's tuple unpacking raises and
the `except` branch returns `("Monk 4", 50.0)`.  A distance of `none` models
`float('inf')` (empty table). -/
def find_closest_monk_tone_advanced (env : CvEnv) (tones : List (String × Color))
    (c : Color) : String × Option ℚ :=
  match advanced_skin_tone_classification env c with
  | none => ("Monk 4", some 50)
  | some (ita_result, ita_confidence) =>
    let dm := distance_match env tones c
    if ita_confidence > 75/100 ∧
        (ita_result = "Monk 1" ∨ ita_result = "Monk 2" ∨ ita_result = "Monk 3") then
      (ita_result, dm.2.map (· * (8/10)))
    else
      dm

/-- Population mean of a list of rationals (`np.mean`). -/
def listMean (l : List ℚ) : ℚ := l.sum / l.length

/-- Population variance of a list of rationals; `np.std` is the external
square root (`env.sqrt`) of this. -/
def listVar (l : List ℚ) : ℚ := listMean (l.map (fun x => (x - listMean l)^2))

/-- `EnhancedSkinToneAnalyzer.calculate_advanced_confidence` (lines 296-335).
The face image appears only through its Laplacian variance
(`cv2.Laplacian(gray, cv2.CV_64F).var()`), passed as `sharpness`; the HSV
saturation of `final_color` comes from the external `cv2` conversion. -/
def calculate_advanced_confidence (env : CvEnv) (sharpness : ℚ) (final_color : Color)
    (region_colors : List Color) : ℚ :=
  let consistency_factor : ℚ :=
    if region_colors.length > 1 then
      let color_std := env.sqrt (listVar (region_colors.map mean3))
      (max 0 (1 - color_std / 50)) * (3/10)
    else 0
  let sharpness_score := min 1 (sharpness / 500)
  let brightness := mean3 final_color
  let brightness_score : ℚ :=
    if 100 ≤ brightness ∧ brightness ≤ 220 then 1
    else max 0 (1 - |brightness - 160| / 100)
  let saturation := (env.hsv final_color).2.1 / 255
  let saturation_score := max 0 (1 - max 0 (saturation - 3/10) / (7/10))
  min 1 (consistency_factor + sharpness_score * (2/10) + brightness_score * (2/10) +
    saturation_score * (15/100) + 15/100)

end Enhanced

namespace Improved

/-- `ImprovedSkinToneAnalyzer.advanced_skin_tone_classification`
(improved_skin_tone_analyzer.py, lines 706-746).  Guard is `b_val != 0`
(unlike the enhanced variant's `abs(b_val) > 0.1`). -/
def advanced_skin_tone_classification (env : CvEnv) (c : Color) : String × ℚ :=
  let labc := env.lab c
  let L := labc.1
  let b_val := labc.2.2
  let ita : ℚ := if b_val ≠ 0 then env.atanDeg ((L - 50) / b_val)
                 else (if L > 50 then 90 else -90)
  if ita > 55 then ("Monk 1", 9/10)
  else if ita > 41 then ("Monk 2", 85/100)
  else if ita > 28 then ("Monk 3", 8/10)
  else if ita > 10 then ("Monk 4", 75/100)
  else if ita > -30 then
    (if L > 65 then ("Monk 5", 7/10)
     else if L > 55 then ("Monk 6", 7/10)
     else ("Monk 7", 7/10))
  else
    (if L > 45 then ("Monk 8", 65/100)
     else if L > 35 then ("Monk 9", 65/100)
     else ("Monk 10", 65/100))

/-- Combined distance of one Monk reference colour from the query,
`ImprovedSkinToneAnalyzer.find_closest_monk_tone_advanced` loop body
(lines 648-690).  The circular hue difference here uses 360 (the enhanced
variant uses 180). -/
def combined_distance (env : CvEnv) (avg : ℚ) (c labc hsvc : Color) (monk_rgb : Color) : ℚ :=
  let monk_lab := env.lab monk_rgb
  let monk_hsv := env.hsv monk_rgb
  let rgb_distance := env.sqrt ((c.1 - monk_rgb.1)^2 + (c.2.1 - monk_rgb.2.1)^2 +
    (c.2.2 - monk_rgb.2.2)^2)
  let lab_distance := env.sqrt ((labc.1 - monk_lab.1)^2 + (labc.2.1 - monk_lab.2.1)^2 +
    (labc.2.2 - monk_lab.2.2)^2)
  let hue_diff := min |hsvc.1 - monk_hsv.1| (360 - |hsvc.1 - monk_hsv.1|)
  let hue_distance := hue_diff / 180 * 100
  let brightness_diff := |avg - mean3 monk_rgb|
  if avg > 200 then
    rgb_distance * (2/10) + lab_distance * (3/10) + hue_distance * (1/10) +
      brightness_diff * (12/10)
  else if avg > 160 then
    rgb_distance * (3/10) + lab_distance * (4/10) + hue_distance * (1/10) +
      brightness_diff * (8/10)
  else
    rgb_distance * (4/10) + lab_distance * (4/10) + hue_distance * (2/10) +
      brightness_diff * (4/10)

/-- The minimum-tracking loop of the improved `find_closest_monk_tone_advanced`
(lines 645-694); `min_distance` starts at `float('inf')` (`none`) and
`closest_monk` at `"Monk 4"`. -/
def distance_match (env : CvEnv) (tones : List (String × Color)) (c : Color) :
    String × Option ℚ :=
  minLoop (fun t => combined_distance env (mean3 c) c (env.lab c) (env.hsv c) t.2)
    tones ("Monk 4", none)

/-- `ImprovedSkinToneAnalyzer.find_closest_monk_tone_advanced` (lines 634-704).
Its arbitration threshold is `ita_confidence > 0.7` (the enhanced variant
uses `0.75`). -/
def find_closest_monk_tone_advanced (env : CvEnv) (tones : List (String × Color))
    (c : Color) : String × Option ℚ :=
  let rc := advanced_skin_tone_classification env c
  let dm := distance_match env tones c
  if rc.2 > 7/10 ∧ (rc.1 = "Monk 1" ∨ rc.1 = "Monk 2" ∨ rc.1 = "Monk 3") then
    (rc.1, dm.2.map (· * (8/10)))
  else
    dm

/-- Component-wise mean of a list of colours (`np.mean(colors, axis=0)`). -/
def listMeanColor (l : List Color) : ℚ × ℚ × ℚ :=
  ((l.map (·.1)).sum / l.length, (l.map (·.2.1)).sum / l.length,
    (l.map (·.2.2)).sum / l.length)

/-- `ImprovedSkinToneAnalyzer.advanced_color_clustering` (lines 330-366).
The zero-sample branch returns the neutral default before anything else runs;
`< 3` samples return the arithmetic mean with confidence 0.4.  The remaining
branch (IQR outlier removal, scikit-learn KMeans with `random_state=42`,
median-nearest cluster selection and silhouette-style confidence,
lines 342-360) is the external clustering backend, abstracted as the
`clusterStep` parameter. -/
def advanced_color_clustering (clusterStep : List Color → Color × ℚ)
    (region_colors : List Color) : Color × ℚ :=
  match region_colors with
  | [] => ((220, 210, 200), 3/10)
  | _ =>
    if region_colors.length < 3 then (listMeanColor region_colors, 4/10)
    else clusterStep region_colors

/-- Population variance of the three channels of one colour;
`np.std(color)` is the external square root of this. -/
def var3 (c : Color) : ℚ :=
  let m := mean3 c
  ((c.1 - m)^2 + (c.2.1 - m)^2 + (c.2.2 - m)^2) / 3

/-- `ImprovedSkinToneAnalyzer.validate_skin_color` (lines 566-595). -/
def validate_skin_color (env : CvEnv) (c : Color) : ℚ :=
  let hsvc := env.hsv c
  let h := hsvc.1
  let s := hsvc.2.1
  let v := hsvc.2.2
  let hue_valid : Bool := h ≤ 30 ∨ h ≥ 330
  let sat_valid : Bool := 20 ≤ s ∧ s ≤ 200
  let brightness_valid : Bool := 50 ≤ v ∧ v ≤ 240
  let ratio_valid : Bool := c.1 ≥ c.2.1 ∧ c.2.1 ≥ c.2.2 * (8/10)
  ((if hue_valid then 1 else 0) + (if sat_valid then 1 else 0) +
    (if brightness_valid then 1 else 0) + (if ratio_valid then 1 else 0)) / 4

/-- `ImprovedSkinToneAnalyzer.calculate_comprehensive_confidence` (lines 523-564).
The face image appears only through its Laplacian variance, passed as
`sharpness`. -/
def calculate_comprehensive_confidence (env : CvEnv) (sharpness : ℚ) (final_color : Color)
    (region_colors : List Color) (clustering_confidence : ℚ) (color_distance : ℚ)
    (has_landmarks : Bool) : ℚ :=
  let f1 := clustering_confidence * (25/100)
  let f2 : ℚ :=
    if region_colors.length > 1 then
      let color_variations := region_colors.map (fun col => env.sqrt (var3 col))
      (max 0 (1 - Enhanced.listMean color_variations / 30)) * (2/10)
    else 1/10
  let f3 := min 1 (sharpness / 500) * (2/10)
  let f4 := max 0 (1 - color_distance / 150) * (15/100)
  let f5 : ℚ := if has_landmarks then 1/10 else 5/100
  let f6 := validate_skin_color env final_color * (1/10)
  min 1 (f1 + f2 + f3 + f4 + f5 + f6)

end Improved

namespace ColorAnalysisUtils

/-- Value of one hexadecimal digit, as accepted by Python's `int(s, 16)` for
digit characters (a non-digit character makes `int` raise `ValueError`,
modelled `none`). -/
def hexDigitVal (c : Char) : Option ℕ :=
  match c with
  | '0' => some 0x0 | '1' => some 0x1 | '2' => some 0x2 | '3' => some 0x3
  | '4' => some 0x4 | '5' => some 0x5 | '6' => some 0x6 | '7' => some 0x7
  | '8' => some 0x8 | '9' => some 0x9
  | 'a' => some 0xa | 'b' => some 0xb | 'c' => some 0xc | 'd' => some 0xd
  | 'e' => some 0xe | 'f' => some 0xf
  | 'A' => some 0xa | 'B' => some 0xb | 'C' => some 0xc | 'D' => some 0xd
  | 'E' => some 0xe | 'F' => some 0xf
  | _ => none

/-- `int(hex_code[i:i+2], 16)` on a two-character slice. -/
def parseHex2 (a b : Char) : Option ℕ := do
  let x ← hexDigitVal a
  let y ← hexDigitVal b
  pure (16 * x + y)

/-- `ColorAnalysisUtils.hex_to_rgb` (color_analysis_utils.py, lines 64-83):
strip every leading `#` (`str.lstrip('#')`), require exactly six remaining
characters (else `ValueError`, modelled `none`), parse three 2-digit slices
in base 16.  `int(s, 16)` is modelled on hexadecimal-digit strings, the
domain this function is used on. -/
def hex_to_rgb (s : String) : Option (ℕ × ℕ × ℕ) :=
  match s.toList.dropWhile (· == '#') with
  | [c0, c1, c2, c3, c4, c5] => do
    let r ← parseHex2 c0 c1
    let g ← parseHex2 c2 c3
    let b ← parseHex2 c4 c5
    pure (r, g, b)
  | _ => none

/-- Two lowercase hex digits of a channel value, Python's `f"{n:02x}"` on the
documented channel domain 0-255 (for `n < 16` the single digit is
zero-padded). -/
def hex2 (n : ℕ) : List Char := [Nat.digitChar (n / 16), Nat.digitChar (n % 16)]

/-- `ColorAnalysisUtils.rgb_to_hex` (lines 85-96): `f"#{r:02x}{g:02x}{b:02x}"`
on the documented channel domain 0-255. -/
def rgb_to_hex (r g b : ℕ) : String :=
  String.mk ('#' :: (hex2 r ++ hex2 g ++ hex2 b))

end ColorAnalysisUtils

namespace Recommendation

/-- `webcolors.hex_to_rgb`: requires a leading `#` followed by six hex digits
(the library also accepts the 3-digit shorthand, which this repository's data
never uses); anything else raises, modelled `none`. -/
def hex_to_rgb_webcolors (s : String) : Option (ℕ × ℕ × ℕ) :=
  match s.toList with
  | '#' :: [c0, c1, c2, c3, c4, c5] => do
    let r ← ColorAnalysisUtils.parseHex2 c0 c1
    let g ← ColorAnalysisUtils.parseHex2 c2 c3
    let b ← ColorAnalysisUtils.parseHex2 c4 c5
    pure (r, g, b)
  | _ => none

/-- `ciede2000_distance` (recommendation_service.py, lines 38-53): RGB
Euclidean distance normalised by 441.67; any invalid colour yields the
maximum distance 1.0 via the `except` branch.  `sq` models `math.sqrt`. -/
def ciede2000_distance (sq : ℚ → ℚ) (c1 c2 : String) : ℚ :=
  match hex_to_rgb_webcolors c1, hex_to_rgb_webcolors c2 with
  | some (r1, g1, b1), some (r2, g2, b2) =>
    sq (((r1 : ℚ) - r2)^2 + ((g1 : ℚ) - g2)^2 + ((b1 : ℚ) - b2)^2) / (44167/100)
  | _, _ => 1

/-- One palette colour record (`{"hex": ..., "name": ...}`). -/
structure PaletteColor where
  hex : String
  name : String
deriving DecidableEq

/-- `get_best_color_match` (lines 55-79): best score over the palette,
strict improvement only, starting from `(0.0, "No match")`. -/
def get_best_color_match (sq : ℚ → ℚ) (product_color : String)
    (palette_colors : List PaletteColor) : ℚ × String :=
  if product_color = "" ∨ palette_colors = [] then (0, "No match")
  else
    palette_colors.foldl (fun acc col =>
      let d := ciede2000_distance sq product_color col.hex
      let score := max 0 (1 - d)
      if acc.1 < score then (score, col.name) else acc) (0, "No match")

/-- Python's `str.lower()` on the ASCII strings this service handles:
lowercase every character. -/
def pyLower (s : String) : String := String.mk (s.toList.map Char.toLower)

/-- One candidate outfit row, restricted to the fields the scoring reads. -/
structure Outfit where
  id : ℕ
  hex_color : String
  occasion : String
  category : String
  price : ℚ
deriving DecidableEq

/-- The fixed `occasion_weights` table of `calculate_occasion_score`
(lines 83-100). -/
def occasion_weights : List (String × List (String × ℚ)) :=
  [("work", [("formal", 9/10), ("business", 95/100), ("professional", 9/10),
             ("casual", 3/10), ("party", 1/10), ("festive", 2/10)]),
   ("casual", [("casual", 95/100), ("everyday", 9/10), ("weekend", 9/10),
               ("formal", 2/10), ("business", 1/10), ("party", 7/10)]),
   ("festive_wedding", [("festive", 95/100), ("party", 9/10), ("celebration", 9/10),
                        ("formal", 8/10), ("elegant", 85/100), ("casual", 3/10)]),
   ("formal_black_tie", [("formal", 95/100), ("elegant", 95/100), ("black_tie", 1),
                         ("business", 7/10), ("casual", 1/10), ("party", 6/10)])]

/-- `calculate_occasion_score` (lines 81-107). -/
def calculate_occasion_score (product : Outfit) (occasion : String) : ℚ :=
  let product_occasion := pyLower product.occasion
  if product_occasion = "" then 1/2
  else
    match occasion_weights.lookup occasion with
    | none => 1/2
    | some weights => (weights.lookup product_occasion).getD (1/2)

/-- `calculate_price_score` (lines 109-121). -/
def calculate_price_score (product_price : ℚ) (budget_range : ℚ × ℚ) : ℚ :=
  let min_budget := budget_range.1
  let max_budget := budget_range.2
  if min_budget ≤ product_price ∧ product_price ≤ max_budget then 1
  else if product_price < min_budget then
    7/10 + 3/10 * (product_price / min_budget)
  else
    max (1/10) (1 - (product_price - max_budget) / max_budget)

/-- Python's `needle in hay` prefix step: does `hay` start with `needle`? -/
def leadsWith : List Char → List Char → Bool
  | [], _ => true
  | _ :: _, [] => false
  | a :: as, b :: bs => a == b && leadsWith as bs

/-- Python's substring test `needle in hay`. -/
def listHas (needle : List Char) : List Char → Bool
  | [] => needle.isEmpty
  | h :: t => leadsWith needle (h :: t) || listHas needle t

/-- `needle in hay` on strings. -/
def strIn (needle hay : String) : Bool := listHas needle.toList hay.toList

/-- The fixed `contrast_weights` table of `calculate_contrast_score`
(lines 125-129). -/
def contrast_weights : List (String × List (String × ℚ)) :=
  [("light", [("light", 1), ("soft", 8/10), ("medium", 5/10), ("bold", 2/10), ("dark", 1/10)]),
   ("medium", [("medium", 1), ("light", 7/10), ("soft", 8/10), ("bold", 7/10), ("dark", 6/10)]),
   ("high", [("bold", 1), ("dark", 9/10), ("dramatic", 1), ("medium", 6/10), ("light", 3/10)])]

/-- `calculate_contrast_score` (lines 123-146): infer the product's contrast
from substrings of its hex-colour and category strings, then look it up in
the requested level's row (defaulting to the `"medium"` row). -/
def calculate_contrast_score (product : Outfit) (contrast_level : String) : ℚ :=
  let product_color := pyLower product.hex_color
  let product_category := pyLower product.category
  let product_contrast :=
    if strIn "light" product_color || strIn "pastel" product_color then "light"
    else if strIn "dark" product_color || strIn "black" product_color then "dark"
    else if strIn "bright" product_color || strIn "bold" product_category then "bold"
    else "medium"
  let weights := (contrast_weights.lookup contrast_level).getD
    [("medium", 1), ("light", 7/10), ("soft", 8/10), ("bold", 7/10), ("dark", 6/10)]
  (weights.lookup product_contrast).getD (1/2)

/-- One scored outfit, the `{**outfit, ...}` dictionary built in
`get_recommendations` (lines 371-383). -/
structure ScoredOutfit where
  item : Outfit
  color_score : ℚ
  occasion_score : ℚ
  price_score : ℚ
  contrast_score : ℚ
  total_score : ℚ
  matched_color : String
deriving DecidableEq

/-- The outfit-scoring step of `get_recommendations` (lines 352-383):
weights 0.55 colour, 0.15 occasion, 0.15 price, 0.15 contrast. -/
def score_outfit (sq : ℚ → ℚ) (palette : List PaletteColor) (occasion contrast : String)
    (budget_range : ℚ × ℚ) (outfit : Outfit) : ScoredOutfit :=
  let cm := get_best_color_match sq outfit.hex_color palette
  let color_score := cm.1
  let occasion_score := calculate_occasion_score outfit occasion
  let price_score := calculate_price_score outfit.price budget_range
  let contrast_score := calculate_contrast_score outfit contrast
  { item := outfit
    color_score := color_score
    occasion_score := occasion_score
    price_score := price_score
    contrast_score := contrast_score
    total_score := 55/100 * color_score + 15/100 * occasion_score +
      15/100 * price_score + 15/100 * contrast_score
    matched_color := cm.2 }

/-- Stable insertion used to model Python's stable
`list.sort(key=lambda x: x["total_score"], reverse=True)` (line 410):
`x` is placed before the first earlier element with strictly smaller
total_score, hence after every element with an equal score. -/
def insertByScore (x : ScoredOutfit) : List ScoredOutfit → List ScoredOutfit
  | [] => [x]
  | y :: ys => if y.total_score < x.total_score then x :: y :: ys
               else y :: insertByScore x ys

/-- Stable descending sort on total_score; observationally equal to Python's
stable sort with `reverse=True` (sortedness plus stability determine the
result uniquely). -/
def sortByScoreDesc (l : List ScoredOutfit) : List ScoredOutfit :=
  l.foldl (fun acc x => insertByScore x acc) []

/-- The scored, sorted outfit sequence produced by `get_recommendations`
(lines 352-410); the HTTP response then returns its first 15 entries. -/
def recommend_outfits (sq : ℚ → ℚ) (palette : List PaletteColor)
    (occasion contrast : String) (budget_range : ℚ × ℚ)
    (outfits : List Outfit) : List ScoredOutfit :=
  sortByScoreDesc (outfits.map (score_outfit sq palette occasion contrast budget_range))

end Recommendation

/-! Concrete stand-ins for the external library functions, used to evaluate
the theorems at specific inputs.  `ratSqrt` satisfies the properties of
`np.sqrt` the theorems assume (`sqrt 0 = 0`, positivity and nonnegativity);
`envModel.hsv` keeps its hue channel inside OpenCV's 0..180 range. -/

/-- A rational stand-in for `np.sqrt`: zero on nonpositives, positive on
positives. -/
def ratSqrt (x : ℚ) : ℚ := if x ≤ 0 then 0 else x

/-- A concrete `CvEnv` instantiation for witnesses. -/
def envModel : CvEnv where
  lab := fun c => c
  hsv := fun c => (90, c.2.1, c.2.2)
  atanDeg := fun x => x
  sqrt := ratSqrt

/-- A concrete `CvEnv` whose Lab conversion agrees with OpenCV's 8-bit
`RGB2LAB` output at the colour (60,40,30): OpenCV encodes
L* ≈ 48.3, a* ≈ 6.8, b* ≈ 11.2 as the 8-bit triple (123, 135, 139)
(L scaled by 255/100, a and b offset by 128), and
`np.arctan((123-50)/139) * 180 / np.pi ≈ 27.7` degrees. -/
def envC2 : CvEnv where
  lab := fun _ => (123, 135, 139)
  hsv := fun c => (90, c.2.1, c.2.2)
  atanDeg := fun _ => 277/10
  sqrt := ratSqrt

/-- Under-budget candidate for the C4 scenario: price 20, id 3. -/
def outfitC : Recommendation.Outfit :=
  { id := 3, hex_color := "#aabbcc", occasion := "casual", category := "tops", price := 20 }

/-- Over-budget candidate for the C4 scenario: price 40, otherwise identical
to `outfitC` except for its id. -/
def outfitD : Recommendation.Outfit :=
  { id := 4, hex_color := "#aabbcc", occasion := "casual", category := "tops", price := 40 }

/-- First candidate of the tie-break counterexample: id 2, otherwise identical
to `outfitB`. -/
def outfitA : Recommendation.Outfit :=
  { id := 2, hex_color := "#aabbcc", occasion := "casual", category := "tops", price := 5 }

/-- Second candidate of the tie-break counterexample: id 1, same colour,
occasion, category and price as `outfitA`. -/
def outfitB : Recommendation.Outfit :=
  { id := 1, hex_color := "#aabbcc", occasion := "casual", category := "tops", price := 5 }

/-! ## Theorems -/

/-- C7: on an empty list of regional colour samples,
`advanced_color_clustering` returns the fixed neutral default (220,210,200)
with clustering confidence exactly 0.3, before the clustering backend is
even consulted (so no exception can arise). -/
theorem c7_clustering_empty_default :
    ∀ clusterStep : List Color → Color × ℚ,
      Improved.advanced_color_clustering clusterStep [] = ((220, 210, 200), 3/10) :=
  fun _ => rfl

/-- C10: for a nonnegative price and a budget `(mn, mx)` with `0 < mn ≤ mx`,
`calculate_price_score` lands in [0.1, 1]; it is exactly 1 iff the price is
inside the budget; an under-budget price scores in [0.7, 1) and an
over-budget price in [0.1, 1). -/
theorem c10_price_score_bounds (p mn mx : ℚ) (hp : 0 ≤ p) (hmn : 0 < mn)
    (hmm : mn ≤ mx) :
    (1/10 ≤ Recommendation.calculate_price_score p (mn, mx) ∧
      Recommendation.calculate_price_score p (mn, mx) ≤ 1) ∧
    (Recommendation.calculate_price_score p (mn, mx) = 1 ↔ (mn ≤ p ∧ p ≤ mx)) ∧
    (p < mn → 7/10 ≤ Recommendation.calculate_price_score p (mn, mx) ∧
      Recommendation.calculate_price_score p (mn, mx) < 1) ∧
    (mx < p → 1/10 ≤ Recommendation.calculate_price_score p (mn, mx) ∧
      Recommendation.calculate_price_score p (mn, mx) < 1) := by
  unfold Recommendation.calculate_price_score
  simp only
  split_ifs with h1 h2
  · refine ⟨⟨by norm_num, le_refl 1⟩, by simpa using h1, fun hlt => ?_, fun hgt => ?_⟩
    · exact absurd h1.1 (not_le.mpr hlt)
    · exact absurd h1.2 (not_le.mpr hgt)
  · have ht0 : 0 ≤ p / mn := div_nonneg hp hmn.le
    have ht1 : p / mn < 1 := (div_lt_one hmn).mpr h2
    refine ⟨⟨by linarith, by linarith⟩, ?_, fun _ => ⟨by linarith, by linarith⟩,
      fun hgt => absurd (lt_of_lt_of_le h2 hmm) (not_lt.mpr hgt.le)⟩
    constructor
    · intro he; exact absurd he (by linarith)
    · intro hin; exact absurd hin.1 (not_le.mpr h2)
  · have hmx : 0 < mx := lt_of_lt_of_le hmn hmm
    have hgt : mx < p := by
      rcases not_and_or.mp h1 with h | h
      · exact absurd (not_le.mp h) h2
      · exact not_le.mp h
    have hov : 0 < (p - mx) / mx := div_pos (by linarith) hmx
    have hlt1 : max (1/10 : ℚ) (1 - (p - mx) / mx) < 1 :=
      max_lt (by norm_num) (by linarith)
    refine ⟨⟨le_max_left _ _, hlt1.le⟩, ?_, fun hlt => absurd hlt (not_lt.mpr ?_),
      fun _ => ⟨le_max_left _ _, hlt1⟩⟩
    · constructor
      · intro he; exact absurd he (by linarith)
      · intro hin; exact absurd hin.2 (not_le.mpr hgt)
    · exact le_trans hmm hgt.le

/-- Closed instance of C10's theorem at price 40 against budget (10, 30). -/
theorem c10_price_score_bounds_witness :
    (1/10 ≤ Recommendation.calculate_price_score 40 (10, 30) ∧
      Recommendation.calculate_price_score 40 (10, 30) ≤ 1) ∧
    (Recommendation.calculate_price_score 40 (10, 30) = 1 ↔ ((10:ℚ) ≤ 40 ∧ (40:ℚ) ≤ 30)) ∧
    ((40:ℚ) < 10 → 7/10 ≤ Recommendation.calculate_price_score 40 (10, 30) ∧
      Recommendation.calculate_price_score 40 (10, 30) < 1) ∧
    ((30:ℚ) < 40 → 1/10 ≤ Recommendation.calculate_price_score 40 (10, 30) ∧
      Recommendation.calculate_price_score 40 (10, 30) < 1) :=
  c10_price_score_bounds 40 10 30 (by norm_num) (by norm_num) (by norm_num)

/-! Hex digit helper lemmas for C6. -/

theorem hexDigitVal_digitChar : ∀ v : ℕ, v < 16 →
    ColorAnalysisUtils.hexDigitVal (Nat.digitChar v) = some v := by decide

theorem digitChar_ne_hash : ∀ v : ℕ, v < 16 → (Nat.digitChar v == '#') = false := by decide

theorem hexDigitVal_spec (c : Char) (v : ℕ)
    (h : ColorAnalysisUtils.hexDigitVal c = some v) :
    v < 16 ∧ Char.toLower c = Nat.digitChar v ∧ (c == '#') = false := by
  unfold ColorAnalysisUtils.hexDigitVal at h
  split at h <;>
    first
    | exact Option.noConfusion h
    | (injection h with h; subst h; exact ⟨by norm_num, by decide, by decide⟩)

/-- C6: (1) for every channel triple in 0..255, `hex_to_rgb (rgb_to_hex r g b)`
recovers the triple exactly; (2) for every six hexadecimal digits,
`hex_to_rgb` parses them and `rgb_to_hex` of the parsed triple reproduces the
string lowercased with a leading `#`; (3) a leading `#` on the input is
stripped and does not affect parsing. -/
theorem c6_hex_rgb_roundtrip :
    (∀ r g b : ℕ, r < 256 → g < 256 → b < 256 →
      ColorAnalysisUtils.hex_to_rgb (ColorAnalysisUtils.rgb_to_hex r g b) = some (r, g, b)) ∧
    (∀ c0 c1 c2 c3 c4 c5 : Char, ∀ v0 v1 v2 v3 v4 v5 : ℕ,
      ColorAnalysisUtils.hexDigitVal c0 = some v0 →
      ColorAnalysisUtils.hexDigitVal c1 = some v1 →
      ColorAnalysisUtils.hexDigitVal c2 = some v2 →
      ColorAnalysisUtils.hexDigitVal c3 = some v3 →
      ColorAnalysisUtils.hexDigitVal c4 = some v4 →
      ColorAnalysisUtils.hexDigitVal c5 = some v5 →
      ColorAnalysisUtils.hex_to_rgb (String.mk [c0, c1, c2, c3, c4, c5]) =
        some (16*v0 + v1, 16*v2 + v3, 16*v4 + v5) ∧
      ColorAnalysisUtils.rgb_to_hex (16*v0 + v1) (16*v2 + v3) (16*v4 + v5) =
        String.mk ('#' :: [c0, c1, c2, c3, c4, c5].map Char.toLower)) ∧
    (∀ s : String, ColorAnalysisUtils.hex_to_rgb ("#" ++ s) =
      ColorAnalysisUtils.hex_to_rgb s) := by
  refine ⟨?_, ?_, ?_⟩
  · intro r g b hr hg hb
    have hr16 : r / 16 < 16 := by omega
    have hg16 : g / 16 < 16 := by omega
    have hb16 : b / 16 < 16 := by omega
    have hrm : r % 16 < 16 := by omega
    have hgm : g % 16 < 16 := by omega
    have hbm : b % 16 < 16 := by omega
    show ColorAnalysisUtils.hex_to_rgb
      (String.mk ('#' :: (ColorAnalysisUtils.hex2 r ++ ColorAnalysisUtils.hex2 g ++
        ColorAnalysisUtils.hex2 b))) = _
    unfold ColorAnalysisUtils.hex_to_rgb ColorAnalysisUtils.hex2
    simp only [String.toList, List.cons_append, List.append_assoc, List.dropWhile_cons,
      beq_self_eq_true, if_true, digitChar_ne_hash _ hr16, Bool.false_eq_true, if_false,
      List.nil_append]
    simp only [ColorAnalysisUtils.parseHex2, hexDigitVal_digitChar _ hr16,
      hexDigitVal_digitChar _ hrm, hexDigitVal_digitChar _ hg16,
      hexDigitVal_digitChar _ hgm, hexDigitVal_digitChar _ hb16,
      hexDigitVal_digitChar _ hbm, Option.bind_some, Option.some.injEq, Option.bind_eq_bind]
    have : ∀ n : ℕ, n < 256 → 16 * (n / 16) + n % 16 = n := by omega
    simp [Option.bind, this r hr, this g hg, this b hb]
  · intro c0 c1 c2 c3 c4 c5 v0 v1 v2 v3 v4 v5 h0 h1 h2 h3 h4 h5
    obtain ⟨hv0, hl0, hh0⟩ := hexDigitVal_spec _ _ h0
    obtain ⟨hv1, hl1, _⟩ := hexDigitVal_spec _ _ h1
    obtain ⟨hv2, hl2, _⟩ := hexDigitVal_spec _ _ h2
    obtain ⟨hv3, hl3, _⟩ := hexDigitVal_spec _ _ h3
    obtain ⟨hv4, hl4, _⟩ := hexDigitVal_spec _ _ h4
    obtain ⟨hv5, hl5, _⟩ := hexDigitVal_spec _ _ h5
    constructor
    · unfold ColorAnalysisUtils.hex_to_rgb
      simp only [String.toList, List.dropWhile_cons, hh0, Bool.false_eq_true, if_false]
      simp [ColorAnalysisUtils.parseHex2, h0, h1, h2, h3, h4, h5, Option.bind]
    · have e0 : (16 * v0 + v1) / 16 = v0 := by omega
      have e1 : (16 * v0 + v1) % 16 = v1 := by omega
      have e2 : (16 * v2 + v3) / 16 = v2 := by omega
      have e3 : (16 * v2 + v3) % 16 = v3 := by omega
      have e4 : (16 * v4 + v5) / 16 = v4 := by omega
      have e5 : (16 * v4 + v5) % 16 = v5 := by omega
      unfold ColorAnalysisUtils.rgb_to_hex ColorAnalysisUtils.hex2
      simp [e0, e1, e2, e3, e4, e5, hl0, hl1, hl2, hl3, hl4, hl5]
  · intro s
    unfold ColorAnalysisUtils.hex_to_rgb
    have : ("#" ++ s).toList = '#' :: s.toList := by
      show ("#" ++ s).data = '#' :: s.data
      simp [String.data_append]
    rw [this]
    simp [List.dropWhile_cons]

/-- Closed instance of C6's theorem: the round trip at (60, 40, 30) and the
parse-then-print direction on the mixed-case digits "A1b2C3". -/
theorem c6_hex_rgb_roundtrip_witness :
    ColorAnalysisUtils.hex_to_rgb (ColorAnalysisUtils.rgb_to_hex 60 40 30) =
      some (60, 40, 30) ∧
    (ColorAnalysisUtils.hex_to_rgb (String.mk ['A', '1', 'b', '2', 'C', '3']) =
      some (16*10 + 1, 16*11 + 2, 16*12 + 3) ∧
     ColorAnalysisUtils.rgb_to_hex (16*10 + 1) (16*11 + 2) (16*12 + 3) =
      String.mk ('#' :: (['A', '1', 'b', '2', 'C', '3'].map Char.toLower))) :=
  ⟨c6_hex_rgb_roundtrip.1 60 40 30 (by norm_num) (by norm_num) (by norm_num),
   c6_hex_rgb_roundtrip.2.1 'A' '1' 'b' '2' 'C' '3' 10 1 11 2 12 3
     rfl rfl rfl rfl rfl rfl⟩

/-! Stable-sort lemmas for the recommendation ranker (C3, C4). -/

namespace Recommendation

theorem mem_insertByScore (x z : ScoredOutfit) :
    ∀ l : List ScoredOutfit, z ∈ insertByScore x l ↔ z = x ∨ z ∈ l := by
  intro l
  induction l with
  | nil => simp [insertByScore]
  | cons y ys ih =>
    unfold insertByScore
    split_ifs with h
    · simp [or_comm, or_assoc, or_left_comm]
    · simp [ih, or_comm, or_assoc, or_left_comm]

theorem pairwise_insertByScore (x : ScoredOutfit) :
    ∀ l : List ScoredOutfit,
      List.Pairwise (fun a b => b.total_score ≤ a.total_score) l →
      List.Pairwise (fun a b => b.total_score ≤ a.total_score) (insertByScore x l) := by
  intro l
  induction l with
  | nil => intro _; simp [insertByScore]
  | cons y ys ih =>
    intro hl
    rw [List.pairwise_cons] at hl
    unfold insertByScore
    split_ifs with h
    · rw [List.pairwise_cons]
      refine ⟨?_, List.pairwise_cons.mpr hl⟩
      intro z hz
      rcases List.mem_cons.mp hz with rfl | hz
      · exact h.le
      · exact le_trans (hl.1 z hz) h.le
    · rw [List.pairwise_cons]
      refine ⟨?_, ih hl.2⟩
      intro z hz
      rcases (mem_insertByScore x z ys).mp hz with rfl | hz
      · exact not_lt.mp h
      · exact hl.1 z hz

theorem filter_insertByScore (x : ScoredOutfit) (q : ℚ) :
    ∀ l : List ScoredOutfit,
      List.Pairwise (fun a b => b.total_score ≤ a.total_score) l →
      (insertByScore x l).filter (fun s => decide (s.total_score = q)) =
        l.filter (fun s => decide (s.total_score = q)) ++
          (if x.total_score = q then [x] else []) := by
  intro l
  induction l with
  | nil =>
    intro _
    by_cases hx : x.total_score = q <;> simp [insertByScore, List.filter, hx]
  | cons y ys ih =>
    intro hl
    rw [List.pairwise_cons] at hl
    unfold insertByScore
    by_cases h : y.total_score < x.total_score
    · rw [if_pos h]
      by_cases hx : x.total_score = q
      · have hfilt : (y :: ys).filter (fun s => decide (s.total_score = q)) = [] := by
          rw [List.filter_eq_nil_iff]
          intro z hz
          have hzy : z.total_score ≤ y.total_score := by
            rcases List.mem_cons.mp hz with rfl | hz
            · exact le_refl _
            · exact hl.1 z hz
          simp only [decide_eq_true_eq]
          intro hzq
          have : z.total_score < x.total_score := lt_of_le_of_lt hzy h
          rw [hzq, hx] at this
          exact lt_irrefl _ this
        simp [List.filter_cons, hx, hfilt]
      · rw [if_neg hx]
        simp [List.filter_cons, hx]
    · rw [if_neg h, List.filter_cons, List.filter_cons, ih hl.2]
      by_cases hy : y.total_score = q <;> simp [hy]

theorem filter_foldl_insert (q : ℚ) :
    ∀ (l acc : List ScoredOutfit),
      List.Pairwise (fun a b => b.total_score ≤ a.total_score) acc →
      (l.foldl (fun a x => insertByScore x a) acc).filter
          (fun s => decide (s.total_score = q)) =
        acc.filter (fun s => decide (s.total_score = q)) ++
          l.filter (fun s => decide (s.total_score = q)) := by
  intro l
  induction l with
  | nil => intro acc _; simp
  | cons x xs ih =>
    intro acc hacc
    have h1 := ih (insertByScore x acc) (pairwise_insertByScore x acc hacc)
    rw [List.foldl_cons, h1, filter_insertByScore x q acc hacc]
    by_cases hx : x.total_score = q <;>
      simp [List.filter, hx]

theorem pairwise_foldl_insert :
    ∀ (l acc : List ScoredOutfit),
      List.Pairwise (fun a b => b.total_score ≤ a.total_score) acc →
      List.Pairwise (fun a b => b.total_score ≤ a.total_score)
        (l.foldl (fun a x => insertByScore x a) acc) := by
  intro l
  induction l with
  | nil => intro acc hacc; simpa using hacc
  | cons x xs ih =>
    intro acc hacc
    exact ih (insertByScore x acc) (pairwise_insertByScore x acc hacc)

end Recommendation

/-- C3 counterexample: two candidates identical except for their ids (2 before
1 in fetch order), same price 5 and hence the same total score, come out of
the ranker still in the order id 2, id 1 — so equal-total ties are *not*
broken by ascending id.  (The empty palette gives both the colour score 0;
occasion "casual", contrast "medium", budget (0, 1000).) -/
theorem c3_counterexample :
    (Recommendation.recommend_outfits ratSqrt [] "casual" "medium" (0, 1000)
        [outfitA, outfitB]).map (fun s => (s.item.id, s.item.price, s.total_score)) =
      [(2, 5, 177/400), (1, 5, 177/400)] := by
  simp +decide [Recommendation.recommend_outfits, Recommendation.sortByScoreDesc,
    Recommendation.insertByScore, Recommendation.score_outfit,
    Recommendation.get_best_color_match, Recommendation.calculate_occasion_score,
    Recommendation.calculate_price_score, Recommendation.calculate_contrast_score,
    Recommendation.occasion_weights, Recommendation.contrast_weights,
    Recommendation.pyLower, Recommendation.strIn, Recommendation.listHas,
    Recommendation.leadsWith, List.lookup, outfitA, outfitB, Char.toLower,
    String.toList]
  norm_num

/-- C3 amended: the ranked output is sorted descending by total score, and
candidates with equal total score keep their fetch order (the database fetch
orders by price ascending; there is no id tie-break). -/
theorem c3_sorted_and_stable (sq : ℚ → ℚ) (palette : List Recommendation.PaletteColor)
    (occasion contrast : String) (budget : ℚ × ℚ)
    (outfits : List Recommendation.Outfit) :
    List.Pairwise (fun a b => b.total_score ≤ a.total_score)
      (Recommendation.recommend_outfits sq palette occasion contrast budget outfits) ∧
    ∀ q : ℚ,
      (Recommendation.recommend_outfits sq palette occasion contrast budget
          outfits).filter (fun s => decide (s.total_score = q)) =
        (outfits.map (Recommendation.score_outfit sq palette occasion contrast
          budget)).filter (fun s => decide (s.total_score = q)) := by
  constructor
  · exact Recommendation.pairwise_foldl_insert _ [] (List.Pairwise.nil)
  · intro q
    have := Recommendation.filter_foldl_insert q
      (outfits.map (Recommendation.score_outfit sq palette occasion contrast budget))
      [] (List.Pairwise.nil)
    simpa [Recommendation.recommend_outfits, Recommendation.sortByScoreDesc] using this

/-- C4: two candidates with identical colour, occasion and contrast scores,
priced 20 and 40 against budget (10, 30): the price-20 candidate gets price
score exactly 1, the price-40 candidate gets exactly 2/3, hence a strictly
lower total score, and the ranker places the price-20 candidate strictly
above the price-40 candidate whichever order they are fetched in. -/
theorem c4_cheaper_candidate_ranks_higher (sq : ℚ → ℚ)
    (palette : List Recommendation.PaletteColor) (occ con : String)
    (o1 o2 : Recommendation.Outfit)
    (hc : (Recommendation.get_best_color_match sq o1.hex_color palette).1 =
      (Recommendation.get_best_color_match sq o2.hex_color palette).1)
    (ho : Recommendation.calculate_occasion_score o1 occ =
      Recommendation.calculate_occasion_score o2 occ)
    (hk : Recommendation.calculate_contrast_score o1 con =
      Recommendation.calculate_contrast_score o2 con)
    (hp1 : o1.price = 20) (hp2 : o2.price = 40) :
    (Recommendation.score_outfit sq palette occ con (10, 30) o1).price_score = 1 ∧
    (Recommendation.score_outfit sq palette occ con (10, 30) o2).price_score = 2/3 ∧
    (Recommendation.score_outfit sq palette occ con (10, 30) o2).total_score <
      (Recommendation.score_outfit sq palette occ con (10, 30) o1).total_score ∧
    Recommendation.recommend_outfits sq palette occ con (10, 30) [o1, o2] =
      [Recommendation.score_outfit sq palette occ con (10, 30) o1,
       Recommendation.score_outfit sq palette occ con (10, 30) o2] ∧
    Recommendation.recommend_outfits sq palette occ con (10, 30) [o2, o1] =
      [Recommendation.score_outfit sq palette occ con (10, 30) o1,
       Recommendation.score_outfit sq palette occ con (10, 30) o2] := by
  have hps1 : Recommendation.calculate_price_score o1.price (10, 30) = 1 := by
    rw [hp1]; norm_num [Recommendation.calculate_price_score]
  have hps2 : Recommendation.calculate_price_score o2.price (10, 30) = 2/3 := by
    rw [hp2]
    unfold Recommendation.calculate_price_score
    norm_num
  have htot : (Recommendation.score_outfit sq palette occ con (10, 30) o2).total_score <
      (Recommendation.score_outfit sq palette occ con (10, 30) o1).total_score := by
    simp only [Recommendation.score_outfit]
    rw [hc, ho, hk, hps1, hps2]
    linarith
  refine ⟨by simp only [Recommendation.score_outfit]; rw [hps1],
    by simp only [Recommendation.score_outfit]; rw [hps2], htot, ?_, ?_⟩
  · simp only [Recommendation.recommend_outfits, Recommendation.sortByScoreDesc,
      List.map, List.foldl, Recommendation.insertByScore]
    rw [if_neg (not_lt.mpr htot.le)]
  · simp only [Recommendation.recommend_outfits, Recommendation.sortByScoreDesc,
      List.map, List.foldl, Recommendation.insertByScore]
    rw [if_pos htot]

/-- Closed instance of C4's theorem at the concrete candidates `outfitC`
(price 20, id 3) and `outfitD` (price 40, id 4) with the empty palette. -/
theorem c4_cheaper_candidate_ranks_higher_witness :
    (Recommendation.score_outfit ratSqrt [] "casual" "medium" (10, 30) outfitC).price_score = 1 ∧
    (Recommendation.score_outfit ratSqrt [] "casual" "medium" (10, 30) outfitD).price_score = 2/3 ∧
    (Recommendation.score_outfit ratSqrt [] "casual" "medium" (10, 30) outfitD).total_score <
      (Recommendation.score_outfit ratSqrt [] "casual" "medium" (10, 30) outfitC).total_score ∧
    Recommendation.recommend_outfits ratSqrt [] "casual" "medium" (10, 30) [outfitC, outfitD] =
      [Recommendation.score_outfit ratSqrt [] "casual" "medium" (10, 30) outfitC,
       Recommendation.score_outfit ratSqrt [] "casual" "medium" (10, 30) outfitD] ∧
    Recommendation.recommend_outfits ratSqrt [] "casual" "medium" (10, 30) [outfitD, outfitC] =
      [Recommendation.score_outfit ratSqrt [] "casual" "medium" (10, 30) outfitC,
       Recommendation.score_outfit ratSqrt [] "casual" "medium" (10, 30) outfitD] :=
  c4_cheaper_candidate_ranks_higher ratSqrt [] "casual" "medium" outfitC outfitD
    rfl rfl rfl rfl rfl

/-- C8: both confidence scorers return a value in [0, 1] for every colour
(including pure black and pure white), every region list and every
nonnegative sharpness (a variance) and clustering confidence; being total
functions, no error can propagate (the Python `except` default 0.5 is the
handler for library failures, which the embedding's parameters make
impossible). -/
theorem c8_confidence_in_unit_interval (env : CvEnv) (sharpness : ℚ)
    (final_color : Color) (region_colors : List Color) (cc d : ℚ) (hl : Bool)
    (hsharp : 0 ≤ sharpness) (hcc : 0 ≤ cc) :
    (0 ≤ Enhanced.calculate_advanced_confidence env sharpness final_color region_colors ∧
      Enhanced.calculate_advanced_confidence env sharpness final_color region_colors ≤ 1) ∧
    (0 ≤ Improved.calculate_comprehensive_confidence env sharpness final_color
        region_colors cc d hl ∧
      Improved.calculate_comprehensive_confidence env sharpness final_color
        region_colors cc d hl ≤ 1) := by
  have hsh : (0:ℚ) ≤ min 1 (sharpness / 500) :=
    le_min (by norm_num) (by positivity)
  constructor
  · unfold Enhanced.calculate_advanced_confidence
    refine ⟨le_min (by norm_num) ?_, min_le_left _ _⟩
    have h1 : (0:ℚ) ≤
        (if region_colors.length > 1 then
          (max 0 (1 - env.sqrt (Enhanced.listVar (region_colors.map mean3)) / 50)) * (3/10)
         else 0) := by
      split_ifs
      · exact mul_nonneg (le_max_left 0 _) (by norm_num)
      · exact le_refl 0
    have h2 : (0:ℚ) ≤
        (if 100 ≤ mean3 final_color ∧ mean3 final_color ≤ 220 then (1:ℚ)
         else max 0 (1 - |mean3 final_color - 160| / 100)) := by
      split_ifs
      · norm_num
      · exact le_max_left 0 _
    have h3 : (0:ℚ) ≤ max 0 (1 - max 0 ((env.hsv final_color).2.1 / 255 - 3/10) / (7/10)) :=
      le_max_left 0 _
    have := mul_nonneg hsh (by norm_num : (0:ℚ) ≤ 2/10)
    have := mul_nonneg h2 (by norm_num : (0:ℚ) ≤ 2/10)
    have := mul_nonneg h3 (by norm_num : (0:ℚ) ≤ 15/100)
    linarith
  · unfold Improved.calculate_comprehensive_confidence
    refine ⟨le_min (by norm_num) ?_, min_le_left _ _⟩
    have h1 : (0:ℚ) ≤ cc * (25/100) := mul_nonneg hcc (by norm_num)
    have h2 : (0:ℚ) ≤
        (if region_colors.length > 1 then
          (max 0 (1 - Enhanced.listMean
            (region_colors.map (fun col => env.sqrt (Improved.var3 col))) / 30)) * (2/10)
         else 1/10) := by
      split_ifs
      · exact mul_nonneg (le_max_left 0 _) (by norm_num)
      · norm_num
    have h3 : (0:ℚ) ≤ max 0 (1 - d / 150) * (15/100) :=
      mul_nonneg (le_max_left 0 _) (by norm_num)
    have h4 : (0:ℚ) ≤ (if hl = true then (1:ℚ)/10 else 5/100) := by
      split_ifs <;> norm_num
    have h5 : (0:ℚ) ≤ Improved.validate_skin_color env final_color := by
      unfold Improved.validate_skin_color
      have := fun (b : Bool) => (by split_ifs <;> norm_num :
        (0:ℚ) ≤ if b = true then (1:ℚ) else 0)
      positivity
    have := mul_nonneg hsh (by norm_num : (0:ℚ) ≤ 2/10)
    have := mul_nonneg h5 (by norm_num : (0:ℚ) ≤ 1/10)
    linarith

/-- Closed instances of C8's theorem at pure black and pure white colours. -/
theorem c8_confidence_in_unit_interval_witness :
    ((0 ≤ Enhanced.calculate_advanced_confidence envModel 0 (0, 0, 0) [] ∧
       Enhanced.calculate_advanced_confidence envModel 0 (0, 0, 0) [] ≤ 1) ∧
     (0 ≤ Improved.calculate_comprehensive_confidence envModel 0 (0, 0, 0) [] 0 0 false ∧
       Improved.calculate_comprehensive_confidence envModel 0 (0, 0, 0) [] 0 0 false ≤ 1)) ∧
    ((0 ≤ Enhanced.calculate_advanced_confidence envModel 0 (255, 255, 255) [] ∧
       Enhanced.calculate_advanced_confidence envModel 0 (255, 255, 255) [] ≤ 1) ∧
     (0 ≤ Improved.calculate_comprehensive_confidence envModel 0 (255, 255, 255) [] 0 0 false ∧
       Improved.calculate_comprehensive_confidence envModel 0 (255, 255, 255) [] 0 0 false ≤ 1)) :=
  ⟨c8_confidence_in_unit_interval envModel 0 (0, 0, 0) [] 0 0 false
      (le_refl 0) (le_refl 0),
   c8_confidence_in_unit_interval envModel 0 (255, 255, 255) [] 0 0 false
      (le_refl 0) (le_refl 0)⟩

/-- C1: whenever all five ultra-light proxy thresholds hold (mean RGB > 200,
luma-weighted mean > 195, Lab L > 75, HSV V > 190, max channel > 220),
the rule-based classifier returns Monk 1 or Monk 2 with confidence ≥ 0.9
(in fact 0.99 or 0.98). -/
theorem c1_ultra_fair_two_lightest (env : CvEnv) (c : Color)
    (h1 : mean3 c > 200)
    (h2 : 299/1000 * c.1 + 587/1000 * c.2.1 + 114/1000 * c.2.2 > 195)
    (h3 : (env.lab c).1 > 75)
    (h4 : max3 c > 190)
    (h5 : max3 c > 220) :
    ∃ t conf, Enhanced.advanced_skin_tone_classification env c = some (t, conf) ∧
      (t = "Monk 1" ∨ t = "Monk 2") ∧ 9/10 ≤ conf := by
  have hbu : (Enhanced.brightness_prefilter env c).is_ultra_fair = true := by
    simp only [Enhanced.brightness_prefilter, decide_eq_true_eq]
    exact ⟨h1, h2, h3, h4, h5⟩
  unfold Enhanced.advanced_skin_tone_classification
  simp only [Enhanced.perfect_fair_skin_classification, hbu, if_true]
  by_cases hL : (Enhanced.brightness_prefilter env c).L_brightness > 80 ∨
      (Enhanced.brightness_prefilter env c).rgb_brightness > 220
  · exact ⟨"Monk 1", 99/100, by simp [hL], Or.inl rfl, by norm_num⟩
  · exact ⟨"Monk 2", 98/100, by simp [hL], Or.inr rfl, by norm_num⟩

/-- Closed instance of C1's theorem at the colour (250, 245, 240) with the
model environment (whose Lab L channel at that colour is 250). -/
theorem c1_ultra_fair_two_lightest_witness :
    ∃ t conf,
      Enhanced.advanced_skin_tone_classification envModel (250, 245, 240) = some (t, conf) ∧
      (t = "Monk 1" ∨ t = "Monk 2") ∧ 9/10 ≤ conf :=
  c1_ultra_fair_two_lightest envModel (250, 245, 240)
    (by norm_num [mean3]) (by norm_num) (by norm_num [envModel])
    (by norm_num [max3]) (by norm_num [max3])

/-- C2 counterexample: at RGB (60, 40, 30) with OpenCV's actual 8-bit Lab
encoding (123, 135, 139) and arctan((123−50)/139)·180/π = 27.7°, the enhanced
rule-based classifier returns ("Monk 3", 0.8) — not a category among the three
darkest, and via the ita > 20 branch rather than ita ≤ −20 (the code feeds the
8-bit-encoded L and b values into the ITA formula, so the angle is positive). -/
theorem c2_counterexample :
    Enhanced.advanced_skin_tone_classification envC2 (60, 40, 30) = some ("Monk 3", 8/10) ∧
    ¬("Monk 3" = "Monk 8" ∨ "Monk 3" = "Monk 9" ∨ "Monk 3" = "Monk 10") := by
  constructor
  · norm_num [Enhanced.advanced_skin_tone_classification,
      Enhanced.perfect_fair_skin_classification, Enhanced.brightness_prefilter,
      envC2, mean3, max3, min3]
  · simp

/-- C2 amended: for RGB (60, 40, 30), whose 8-bit Lab encoding has L within
[118, 130] and b within [130, 148] (OpenCV nominally gives (123, 135, 139)),
no fair-skin branch fires and the enhanced classifier takes the ITA fallback
with the positive angle arctan((L−50)/b) ≈ 27.7° ∈ (20°, 35°], returning
("Monk 3", 0.8) — a light-intermediate category, not one of the three
darkest. -/
theorem c2_amended_monk3 (env : CvEnv) (L a b : ℚ)
    (hlab : env.lab (60, 40, 30) = (L, a, b))
    (hL1 : 118 ≤ L) (hL2 : L ≤ 130) (hb1 : 130 ≤ b) (hb2 : b ≤ 148)
    (hita1 : 20 < env.atanDeg ((L - 50) / b))
    (hita2 : env.atanDeg ((L - 50) / b) ≤ 35) :
    Enhanced.advanced_skin_tone_classification env (60, 40, 30) =
      some ("Monk 3", 8/10) := by
  have hu : (Enhanced.brightness_prefilter env (60, 40, 30)).is_ultra_fair = false := by
    simp only [Enhanced.brightness_prefilter, decide_eq_false_iff_not]
    intro h
    have := h.1
    norm_num [mean3] at this
  have hv : (Enhanced.brightness_prefilter env (60, 40, 30)).is_very_fair = false := by
    simp only [Enhanced.brightness_prefilter, decide_eq_false_iff_not]
    intro h
    have := h.1
    norm_num [mean3] at this
  have hf : (Enhanced.brightness_prefilter env (60, 40, 30)).is_fair = false := by
    simp only [Enhanced.brightness_prefilter, decide_eq_false_iff_not]
    intro h
    have := h.1
    norm_num [mean3] at this
  have habs : |b| > (1:ℚ)/10 := by
    rw [abs_of_pos (by linarith)]; linarith
  unfold Enhanced.advanced_skin_tone_classification
  simp only [Enhanced.perfect_fair_skin_classification, hu, hv, hf,
    Bool.false_eq_true, if_false, hlab]
  split_ifs <;>
    first
    | rfl
    | (exfalso; norm_num [mean3] at *; done)
    | (exfalso; linarith [habs, hita1, hita2])

/-- Closed instance of C2's amended theorem at the nominal OpenCV Lab
encoding (123, 135, 139) of (60, 40, 30). -/
theorem c2_amended_monk3_witness :
    Enhanced.advanced_skin_tone_classification envC2 (60, 40, 30) =
      some ("Monk 3", 8/10) :=
  c2_amended_monk3 envC2 123 135 139 rfl (by norm_num) (by norm_num)
    (by norm_num) (by norm_num) (by norm_num [envC2]) (by norm_num [envC2])

/-! Lemmas about the minimum-tracking loop for C5. -/

theorem minLoop_cons (f : String × Color → ℚ) (t : String × Color)
    (ts : List (String × Color)) (s : String × Option ℚ) :
    minLoop f (t :: ts) s = minLoop f ts (minStep f s t) := rfl

theorem minLoop_append (f : String × Color → ℚ) (l1 l2 : List (String × Color))
    (s : String × Option ℚ) :
    minLoop f (l1 ++ l2) s = minLoop f l2 (minLoop f l1 s) :=
  List.foldl_append _ _ _ _

/-- The loop state is `none` or a strictly positive minimum, as long as every
visited distance is strictly positive. -/
theorem minLoop_state_pos (f : String × Color → ℚ) :
    ∀ (l : List (String × Color)), (∀ t ∈ l, 0 < f t) →
    ∀ s : String × Option ℚ,
      (s.2 = none ∨ ∃ m, s.2 = some m ∧ 0 < m) →
      ((minLoop f l s).2 = none ∨ ∃ m, (minLoop f l s).2 = some m ∧ 0 < m) := by
  intro l
  induction l with
  | nil => intro _ s hs; exact hs
  | cons t ts ih =>
    intro hl s hs
    rw [minLoop_cons]
    refine ih (fun x hx => hl x (List.mem_cons_of_mem t hx)) (minStep f s t) ?_
    obtain ⟨nm, o⟩ := s
    rcases hs with hs | ⟨m, hm, hmpos⟩
    · simp only at hs
      subst hs
      exact Or.inr ⟨f t, rfl, hl t (List.mem_cons_self t ts)⟩
    · simp only at hm
      subst hm
      have hstep : minStep f (nm, some m) t =
          if f t < m then (t.1, some (f t)) else (nm, some m) := rfl
      rw [hstep]
      by_cases hd : f t < m
      · rw [if_pos hd]
        exact Or.inr ⟨f t, rfl, hl t (List.mem_cons_self t ts)⟩
      · rw [if_neg hd]
        exact Or.inr ⟨m, rfl, hmpos⟩

/-- Once the state holds a zero minimum, strictly positive later distances
never replace it. -/
theorem minLoop_zero_absorbs (f : String × Color → ℚ) (nm : String) :
    ∀ (l : List (String × Color)), (∀ t ∈ l, 0 < f t) →
      minLoop f l (nm, some 0) = (nm, some 0) := by
  intro l
  induction l with
  | nil => intro _; rfl
  | cons t ts ih =>
    intro hl
    rw [minLoop_cons]
    have hstep : minStep f (nm, some 0) t = (nm, some 0) := by
      have hred : minStep f (nm, some 0) t =
          if f t < 0 then (t.1, some (f t)) else (nm, some 0) := rfl
      rw [hred, if_neg (not_lt.mpr (hl t (List.mem_cons_self t ts)).le)]
    rw [hstep]
    exact ih (fun x hx => hl x (List.mem_cons_of_mem t hx))

/-- If exactly one entry has distance zero and every other entry a strictly
positive distance, the loop returns that entry's name with minimum 0. -/
theorem minLoop_exact (f : String × Color → ℚ) (pre post : List (String × Color))
    (nm : String) (q : Color) (init : String)
    (hpre : ∀ t ∈ pre, 0 < f t) (hpost : ∀ t ∈ post, 0 < f t)
    (h0 : f (nm, q) = 0) :
    minLoop f (pre ++ (nm, q) :: post) (init, none) = (nm, some 0) := by
  rw [minLoop_append, minLoop_cons]
  have hstate := minLoop_state_pos f pre hpre (init, none) (Or.inl rfl)
  have hstep : minStep f (minLoop f pre (init, none)) (nm, q) = (nm, some 0) := by
    rcases hstate with hs | ⟨m, hm, hmpos⟩
    · have hpair : minLoop f pre (init, none) =
          ((minLoop f pre (init, none)).1, none) := Prod.ext rfl hs
      rw [hpair]
      have hred : minStep f ((minLoop f pre (init, none)).1, none) (nm, q) =
          (nm, some (f (nm, q))) := rfl
      rw [hred, h0]
    · have hpair : minLoop f pre (init, none) =
          ((minLoop f pre (init, none)).1, some m) := Prod.ext rfl hm
      rw [hpair]
      have hred : minStep f ((minLoop f pre (init, none)).1, some m) (nm, q) =
          if f (nm, q) < m then (nm, some (f (nm, q)))
          else ((minLoop f pre (init, none)).1, some m) := rfl
      rw [hred, h0, if_pos hmpos]
  rw [hstep]
  exact minLoop_zero_absorbs f nm post hpost

/-! Vanishing and positivity of the combined distances for C5. -/

theorem sum_sq_pos_of_ne (q m : Color) (hne : m ≠ q) :
    0 < (q.1 - m.1)^2 + (q.2.1 - m.2.1)^2 + (q.2.2 - m.2.2)^2 := by
  have hd : q.1 ≠ m.1 ∨ q.2.1 ≠ m.2.1 ∨ q.2.2 ≠ m.2.2 := by
    by_contra h
    push_neg at h
    obtain ⟨h1, h2, h3⟩ := h
    exact hne (by
      rw [Prod.ext_iff, Prod.ext_iff]
      exact ⟨h1.symm, h2.symm, h3.symm⟩)
  rcases hd with h | h | h
  · have : (0:ℚ) < (q.1 - m.1)^2 := pow_two_pos_of_ne_zero (sub_ne_zero.mpr h)
    nlinarith [sq_nonneg (q.2.1 - m.2.1), sq_nonneg (q.2.2 - m.2.2)]
  · have : (0:ℚ) < (q.2.1 - m.2.1)^2 := pow_two_pos_of_ne_zero (sub_ne_zero.mpr h)
    nlinarith [sq_nonneg (q.1 - m.1), sq_nonneg (q.2.2 - m.2.2)]
  · have : (0:ℚ) < (q.2.2 - m.2.2)^2 := pow_two_pos_of_ne_zero (sub_ne_zero.mpr h)
    nlinarith [sq_nonneg (q.1 - m.1), sq_nonneg (q.2.1 - m.2.1)]

theorem enhanced_cd_self (env : CvEnv) (hsqrt0 : env.sqrt 0 = 0) (q : Color) :
    Enhanced.combined_distance env (mean3 q) q (env.lab q) (env.hsv q) q = 0 := by
  unfold Enhanced.combined_distance
  have h180 : min (0:ℚ) 180 = 0 := min_eq_left (by norm_num)
  simp [hsqrt0, h180]

theorem improved_cd_self (env : CvEnv) (hsqrt0 : env.sqrt 0 = 0) (q : Color) :
    Improved.combined_distance env (mean3 q) q (env.lab q) (env.hsv q) q = 0 := by
  unfold Improved.combined_distance
  have h360 : min (0:ℚ) 360 = 0 := min_eq_left (by norm_num)
  simp [hsqrt0, h360]

theorem enhanced_cd_pos (env : CvEnv)
    (hsqrtpos : ∀ x, 0 < x → 0 < env.sqrt x)
    (hsqrtnn : ∀ x, 0 ≤ x → 0 ≤ env.sqrt x)
    (hH : ∀ c, 0 ≤ (env.hsv c).1 ∧ (env.hsv c).1 ≤ 180)
    (q m : Color) (hne : m ≠ q) :
    0 < Enhanced.combined_distance env (mean3 q) q (env.lab q) (env.hsv q) m := by
  have hA : 0 < env.sqrt ((q.1 - m.1)^2 + (q.2.1 - m.2.1)^2 + (q.2.2 - m.2.2)^2) :=
    hsqrtpos _ (sum_sq_pos_of_ne q m hne)
  have hB : 0 ≤ env.sqrt (((env.lab q).1 - (env.lab m).1)^2 +
      ((env.lab q).2.1 - (env.lab m).2.1)^2 + ((env.lab q).2.2 - (env.lab m).2.2)^2) :=
    hsqrtnn _ (by positivity)
  have hq := hH q
  have hm := hH m
  have habs : |(env.hsv q).1 - (env.hsv m).1| ≤ 180 := by
    rw [abs_le]; constructor <;> linarith [hq.1, hq.2, hm.1, hm.2]
  have hC : 0 ≤ min |(env.hsv q).1 - (env.hsv m).1|
      (180 - |(env.hsv q).1 - (env.hsv m).1|) :=
    le_min (abs_nonneg _) (by linarith)
  have hbd : 0 ≤ |mean3 q - mean3 m| := abs_nonneg _
  unfold Enhanced.combined_distance
  dsimp only
  split_ifs <;> linarith

theorem improved_cd_pos (env : CvEnv)
    (hsqrtpos : ∀ x, 0 < x → 0 < env.sqrt x)
    (hsqrtnn : ∀ x, 0 ≤ x → 0 ≤ env.sqrt x)
    (hH : ∀ c, 0 ≤ (env.hsv c).1 ∧ (env.hsv c).1 ≤ 180)
    (q m : Color) (hne : m ≠ q) :
    0 < Improved.combined_distance env (mean3 q) q (env.lab q) (env.hsv q) m := by
  have hA : 0 < env.sqrt ((q.1 - m.1)^2 + (q.2.1 - m.2.1)^2 + (q.2.2 - m.2.2)^2) :=
    hsqrtpos _ (sum_sq_pos_of_ne q m hne)
  have hB : 0 ≤ env.sqrt (((env.lab q).1 - (env.lab m).1)^2 +
      ((env.lab q).2.1 - (env.lab m).2.1)^2 + ((env.lab q).2.2 - (env.lab m).2.2)^2) :=
    hsqrtnn _ (by positivity)
  have hq := hH q
  have hm := hH m
  have habs : |(env.hsv q).1 - (env.hsv m).1| ≤ 180 := by
    rw [abs_le]; constructor <;> linarith [hq.1, hq.2, hm.1, hm.2]
  have hC : 0 ≤ min |(env.hsv q).1 - (env.hsv m).1|
      (360 - |(env.hsv q).1 - (env.hsv m).1|) :=
    le_min (abs_nonneg _) (by linarith)
  have hbd : 0 ≤ |mean3 q - mean3 m| := abs_nonneg _
  unfold Improved.combined_distance
  dsimp only
  split_ifs <;> linarith

/-- C5: for a Monk table whose other reference colours all differ from the
query and a query exactly equal to one category's reference RGB, both
analyzers' distance matchers return that category with combined distance 0
(every distance term vanishes at equality, and every other entry's combined
distance is strictly positive under all brightness-dependent weighting
branches).  The hypotheses on `env` are properties of `np.sqrt` and of
OpenCV's HSV hue channel (which lies in 0..180). -/
theorem c5_exact_reference_match (env : CvEnv) (pre post : List (String × Color))
    (nm : String) (q : Color)
    (hsqrt0 : env.sqrt 0 = 0)
    (hsqrtpos : ∀ x, 0 < x → 0 < env.sqrt x)
    (hsqrtnn : ∀ x, 0 ≤ x → 0 ≤ env.sqrt x)
    (hH : ∀ c, 0 ≤ (env.hsv c).1 ∧ (env.hsv c).1 ≤ 180)
    (hdiff : ∀ t ∈ pre ++ post, t.2 ≠ q) :
    Enhanced.distance_match env (pre ++ (nm, q) :: post) q = (nm, some 0) ∧
    Improved.distance_match env (pre ++ (nm, q) :: post) q = (nm, some 0) := by
  constructor
  · unfold Enhanced.distance_match
    exact minLoop_exact _ pre post nm q "Monk 2"
      (fun t ht => enhanced_cd_pos env hsqrtpos hsqrtnn hH q t.2
        (hdiff t (List.mem_append_left post ht)))
      (fun t ht => enhanced_cd_pos env hsqrtpos hsqrtnn hH q t.2
        (hdiff t (List.mem_append_right pre ht)))
      (enhanced_cd_self env hsqrt0 q)
  · unfold Improved.distance_match
    exact minLoop_exact _ pre post nm q "Monk 4"
      (fun t ht => improved_cd_pos env hsqrtpos hsqrtnn hH q t.2
        (hdiff t (List.mem_append_left post ht)))
      (fun t ht => improved_cd_pos env hsqrtpos hsqrtnn hH q t.2
        (hdiff t (List.mem_append_right pre ht)))
      (improved_cd_self env hsqrt0 q)

/-- Closed instance of C5's theorem: a two-entry table where the query
(246, 237, 228) equals the second entry's reference colour. -/
theorem c5_exact_reference_match_witness :
    Enhanced.distance_match envModel
      [("Monk 5", (213, 189, 175)), ("Monk 2", (246, 237, 228))]
      (246, 237, 228) = ("Monk 2", some 0) ∧
    Improved.distance_match envModel
      [("Monk 5", (213, 189, 175)), ("Monk 2", (246, 237, 228))]
      (246, 237, 228) = ("Monk 2", some 0) :=
  c5_exact_reference_match envModel [("Monk 5", (213, 189, 175))] []
    "Monk 2" (246, 237, 228)
    (by norm_num [envModel, ratSqrt])
    (fun x hx => by simp only [envModel, ratSqrt]; rw [if_neg (not_le.mpr hx)]; exact hx)
    (fun x hx => by simp only [envModel, ratSqrt]; split_ifs <;> [exact le_refl 0; exact hx])
    (fun c => by norm_num [envModel])
    (by
      intro t ht
      simp only [List.append_nil, List.mem_singleton] at ht
      subst ht
      simp only [ne_eq, Prod.mk.injEq, not_and]
      norm_num)

set_option maxHeartbeats 1000000 in
/-- Whenever the improved rule-based classifier returns one of the three
lightest categories, its confidence is at least 0.8 (the Monk 1/2/3 branches
carry confidences 0.9, 0.85 and 0.8). -/
theorem improved_L3_confidence (env : CvEnv) (c : Color)
    (h : (Improved.advanced_skin_tone_classification env c).1 = "Monk 1" ∨
         (Improved.advanced_skin_tone_classification env c).1 = "Monk 2" ∨
         (Improved.advanced_skin_tone_classification env c).1 = "Monk 3") :
    8/10 ≤ (Improved.advanced_skin_tone_classification env c).2 := by
  unfold Improved.advanced_skin_tone_classification at h ⊢
  dsimp only at h ⊢
  split_ifs at h ⊢ <;> simp_all <;> norm_num

/-- C9: each combined matcher returns the rule-based result with the minimum
combined distance scaled by 0.8 exactly when the rule-based confidence
exceeds 0.75 and the rule-based category is Monk 1, 2 or 3; otherwise it
returns the distance matcher's result unscaled.  For the enhanced variant this
is the literal arbitration test; the improved variant tests `> 0.7`, but its
classifier only reaches Monk 1-3 with confidence ≥ 0.8, so its observable
arbitration boundary is the same. -/
theorem c9_arbitration (env : CvEnv) (tones : List (String × Color)) (c : Color) :
    (∀ res conf, Enhanced.advanced_skin_tone_classification env c = some (res, conf) →
      Enhanced.find_closest_monk_tone_advanced env tones c =
        (if conf > 75/100 ∧ (res = "Monk 1" ∨ res = "Monk 2" ∨ res = "Monk 3")
         then (res, (Enhanced.distance_match env tones c).2.map (· * (8/10)))
         else Enhanced.distance_match env tones c)) ∧
    (Improved.find_closest_monk_tone_advanced env tones c =
      (if (Improved.advanced_skin_tone_classification env c).2 > 75/100 ∧
          ((Improved.advanced_skin_tone_classification env c).1 = "Monk 1" ∨
           (Improved.advanced_skin_tone_classification env c).1 = "Monk 2" ∨
           (Improved.advanced_skin_tone_classification env c).1 = "Monk 3")
       then ((Improved.advanced_skin_tone_classification env c).1,
             (Improved.distance_match env tones c).2.map (· * (8/10)))
       else Improved.distance_match env tones c)) := by
  constructor
  · intro res conf h
    unfold Enhanced.find_closest_monk_tone_advanced
    rw [h]
  · unfold Improved.find_closest_monk_tone_advanced
    dsimp only
    by_cases hL3 : (Improved.advanced_skin_tone_classification env c).1 = "Monk 1" ∨
        (Improved.advanced_skin_tone_classification env c).1 = "Monk 2" ∨
        (Improved.advanced_skin_tone_classification env c).1 = "Monk 3"
    · have hconf := improved_L3_confidence env c hL3
      rw [if_pos ⟨lt_of_lt_of_le (by norm_num) hconf, hL3⟩,
        if_pos ⟨lt_of_lt_of_le (by norm_num) hconf, hL3⟩]
    · rw [if_neg (fun hx => hL3 hx.2), if_neg (fun hx => hL3 hx.2)]

/-- Closed instance of C9's theorem: at (250, 245, 240) with the model
environment, the enhanced rule result is ("Monk 1", 0.99), so the enhanced
matcher returns it (with no distance to scale on the empty table); the
improved rule result is ("Monk 5", 0.7), so the improved matcher falls back
to the distance matcher's initial state. -/
theorem c9_arbitration_witness :
    Enhanced.find_closest_monk_tone_advanced envModel [] (250, 245, 240) =
      ("Monk 1", none) ∧
    Improved.find_closest_monk_tone_advanced envModel [] (250, 245, 240) =
      ("Monk 4", none) := by
  have h := c9_arbitration envModel [] (250, 245, 240)
  have hcls : Enhanced.advanced_skin_tone_classification envModel (250, 245, 240) =
      some ("Monk 1", 99/100) := by
    norm_num [Enhanced.advanced_skin_tone_classification,
      Enhanced.perfect_fair_skin_classification, Enhanced.brightness_prefilter,
      envModel, mean3, max3, min3]
  have hicls : Improved.advanced_skin_tone_classification envModel (250, 245, 240) =
      ("Monk 5", 7/10) := by
    norm_num [Improved.advanced_skin_tone_classification, envModel]
  constructor
  · rw [h.1 "Monk 1" (99/100) hcls,
      if_pos ⟨by norm_num, Or.inl rfl⟩]
    rfl
  · rw [h.2, if_neg ?_]
    · rfl
    · rw [hicls]
      rintro ⟨hconf, -⟩
      norm_num at hconf

end AiFashion
